import Mathlib

/-!
# Verification of the `FirebaseTest` diagnostic component

Shallow embedding of `src/components/FirebaseTest.tsx`: a diagnostic UI
component that probes a hosted document store, inserts and deletes sample
records, and subscribes to live updates.  The component's local state
(`status`, `message`, `testProjects`, `isLoading`, `realTimeStatus`) is
modelled as an explicit state record; every asynchronous call to the
external collaborator (Firestore) is modelled by passing its result in as
a parameter (`Except String _` for fallible calls, an oracle
`String → Except String Unit` for per-document deletion).  Each operation
returns, besides the final state, a trace of the external calls it issued,
so that claims about "no insert was submitted" or "exactly k deletions
were attempted" are directly statable.
-/

namespace FirebaseTest

/-- Status of a task inside a record's task list
(`status: "progress" | "done"` in the source's sample data). -/
inductive NoteStatus where
  | progress
  | done
deriving DecidableEq, Repr

/-- One entry of the `notes` task list of a `TestProject`
(`{text, status, due}` objects in the source). -/
structure Note where
  text : String
  status : NoteStatus
  due : String
deriving DecidableEq, Repr

/-- The document fields of a project, i.e. a `TestProject` minus the
store-assigned `id` (`Omit<TestProject, 'id'>` plus the timestamps).
`createdAt` / `updatedAt` (JS `Date`) are modelled as optional
milliseconds-since-epoch counts. -/
structure ProjectData where
  name : String
  location : String
  pm : String
  pic : String
  picRole : String
  due : String
  notes : List Note
  createdAt : Option Nat := none
  updatedAt : Option Nat := none
deriving DecidableEq, Repr

/-- The `TestProject` interface of the source: document fields plus the
optional store-assigned identifier. -/
structure TestProject extends ProjectData where
  id : Option String := none
deriving DecidableEq, Repr

/-- One document of a query snapshot as delivered by the store:
a document id plus its data (`doc.id` / `doc.data()`). -/
structure DocSnap where
  docId : String
  data : ProjectData
deriving DecidableEq, Repr

/-- The mapping `doc => ({ id: doc.id, ...doc.data() })` applied to every
document of a snapshot, in `testConnection` and in the subscription
callback. -/
def docToProject (d : DocSnap) : TestProject :=
  { toProjectData := d.data, id := some d.docId }

/-- Connection status of the component, the `status` hook:
`"idle" | "testing" | "success" | "error"`. -/
inductive ConnectionStatus where
  | idle
  | testing
  | success
  | error
deriving DecidableEq, Repr

/-- Real-time status of the component, the `realTimeStatus` hook:
`"idle" | "connected" | "disconnected"`. -/
inductive RealTimeStatus where
  | idle
  | connected
  | disconnected
deriving DecidableEq, Repr

/-- The component's local state: the five `useState` hooks of
`FirebaseTest`. -/
structure ComponentState where
  status : ConnectionStatus
  message : String
  testProjects : List TestProject
  isLoading : Bool
  realTimeStatus : RealTimeStatus
deriving DecidableEq, Repr

/-- The initial state of the component (the `useState` initialisers). -/
def initialState : ComponentState :=
  { status := ConnectionStatus.idle
    message := ""
    testProjects := []
    isLoading := false
    realTimeStatus := RealTimeStatus.idle }

/-- Substring containment on strings (JS `String.prototype.includes`),
via character lists: some suffix of `s` starts with `pat`. -/
def strContains (s pat : String) : Bool :=
  (List.range (s.data.length + 1)).any fun i => pat.data.isPrefixOf (s.data.drop i)

/-- The synthetic name prefix used by the insert command and matched by the
delete command. -/
def testNamePrefix : String := "Test Project"

/-- The synthetic sample record built by `addTestData` from the current
instant (`Date.now()`), including the payload timestamps
(`createdAt: new Date(), updatedAt: new Date()`). -/
def makeTestProject (now : Nat) : ProjectData :=
  { name := "Test Project " ++ toString now
    location := "Test Location"
    pm := "Test PM"
    pic := "Test PIC"
    picRole := "Test Role"
    due := "2026-12-31"
    notes :=
      [ { text := "Test task 1", status := NoteStatus.progress, due := "2026-12-31" }
      , { text := "Test task 2", status := NoteStatus.done, due := "2026-12-30" } ]
    createdAt := some now
    updatedAt := some now }

/-- Result of one run of the Connection Prober `testConnection`:
`mid` is the state after the two synchronous writes at the top of the
function (`setStatus("testing")`, the in-progress message), `final` the
state after the awaited read resolved. -/
structure ProbeRun where
  mid : ComponentState
  final : ComponentState
deriving DecidableEq, Repr

/-- The Connection Prober `testConnection`: sets `status = testing` with an in-progress message,
then awaits `getDocs` (whose outcome is the parameter `readResult`).
On success it sets `status = success`, a message containing the document
count, and replaces `testProjects` with the mapped snapshot; on failure it
sets `status = error` and a message containing the failure description,
leaving `testProjects` untouched. -/
def testConnection (readResult : Except String (List DocSnap))
    (s : ComponentState) : ProbeRun :=
  let mid := { s with status := ConnectionStatus.testing
                      message := "Testing Firebase connection..." }
  match readResult with
  | Except.ok docs =>
      { mid := mid
        final :=
          { mid with
            status := ConnectionStatus.success
            message := "✅ Firebase connected! Found " ++ toString docs.length
              ++ " projects in database."
            testProjects := docs.map docToProject } }
  | Except.error e =>
      { mid := mid
        final :=
          { mid with
            status := ConnectionStatus.error
            message := "❌ Firebase connection failed: " ++ e } }

/-- Trace of one run of the insert command `addTestData`: the state after
the synchronous writes at the top (`setIsLoading(true)` and the
"Adding..." message), the payloads submitted to `addDoc`, whether the
refresh probe was re-run, and the final state. -/
structure InsertRun where
  startState : ComponentState
  submitted : List ProjectData
  probeRan : Bool
  messages : List String
  final : ComponentState
deriving DecidableEq, Repr

/-- The insert command `addTestData`: sets the busy flag and an in-progress message, submits
the synthetic record, and on success emits a message containing the
assigned identifier and then awaits `testConnection` to refresh; on
failure emits a message containing the failure description.  The
`finally` block clears the busy flag on both paths.  `testConnection`
catches its own read failures, so a failing refresh read still takes the
success branch here. -/
def addTestData (now : Nat) (addResult : Except String String)
    (readResult : Except String (List DocSnap))
    (s : ComponentState) : InsertRun :=
  let s1 := { s with isLoading := true, message := "Adding test project..." }
  let payload := makeTestProject now
  match addResult with
  | Except.ok docId =>
      let s2 := { s1 with message := "✅ Test project added! ID: " ++ docId }
      let probe := testConnection readResult s2
      { startState := s1
        submitted := [payload]
        probeRan := true
        messages := [s1.message, s2.message, probe.mid.message, probe.final.message]
        final := { probe.final with isLoading := false } }
  | Except.error e =>
      { startState := s1
        submitted := [payload]
        probeRan := false
        messages := [s1.message, "❌ Failed to add test project: " ++ e]
        final := { s1 with
          message := "❌ Failed to add test project: " ++ e
          isLoading := false } }

/-- The filter of the delete command: local records whose name contains
the synthetic prefix (`p.name.includes("Test Project")`). -/
def matchingProjects (s : ComponentState) : List TestProject :=
  s.testProjects.filter fun p => strContains p.name testNamePrefix

/-- Outcome of the sequential deletion loop of `clearTestData`:
the delete calls issued to the store in order (including a final failing
one), the ones that succeeded, and the first failure description if any. -/
structure DeleteRun where
  issued : List String
  succeeded : List String
  failure : Option String
deriving DecidableEq, Repr

/-- The `for (const project of projectsToDelete)` loop of `clearTestData`:
records without an identifier are skipped; deletions run sequentially and
the first failing `deleteDoc` aborts the rest (the exception escapes the
loop). -/
def runDeletes (del : String → Except String Unit) :
    List TestProject → DeleteRun
  | [] => { issued := [], succeeded := [], failure := none }
  | p :: rest =>
      match p.id with
      | none => runDeletes del rest
      | some i =>
          match del i with
          | Except.ok _ =>
              let r := runDeletes del rest
              { issued := i :: r.issued
                succeeded := i :: r.succeeded
                failure := r.failure }
          | Except.error e =>
              { issued := [i], succeeded := [], failure := some e }

/-- Trace of one run of the delete command `clearTestData`: the state
after the synchronous writes at the top, the delete calls issued, whether
the refresh probe was re-run, and the final state. -/
structure ClearRun where
  startState : ComponentState
  deletesIssued : List String
  deletesSucceeded : List String
  probeRan : Bool
  messages : List String
  final : ComponentState
deriving DecidableEq, Repr

/-- The delete command `clearTestData`: sets the busy flag and an in-progress message,
deletes the matching records sequentially, and on completion emits a
message with the match count and awaits `testConnection` to refresh; a
deletion failure jumps to the catch block, which emits a message
containing the failure description and does not re-probe.  The `finally`
block clears the busy flag on both paths. -/
def clearTestData (del : String → Except String Unit)
    (readResult : Except String (List DocSnap))
    (s : ComponentState) : ClearRun :=
  let s1 := { s with isLoading := true, message := "Clearing test data..." }
  let toClear := matchingProjects s
  let run := runDeletes del toClear
  match run.failure with
  | none =>
      let s2 := { s1 with
        message := "✅ Cleared " ++ toString toClear.length ++ " test projects" }
      let probe := testConnection readResult s2
      { startState := s1
        deletesIssued := run.issued
        deletesSucceeded := run.succeeded
        probeRan := true
        messages := [s1.message, s2.message, probe.mid.message, probe.final.message]
        final := { probe.final with isLoading := false } }
  | some e =>
      { startState := s1
        deletesIssued := run.issued
        deletesSucceeded := run.succeeded
        probeRan := false
        messages := [s1.message, "❌ Failed to clear test data: " ++ e]
        final := { s1 with
          message := "❌ Failed to clear test data: " ++ e
          isLoading := false } }

/-- One event delivered to the `onSnapshot` subscription: a data snapshot
or a subscription error. -/
inductive SubEvent where
  | snapshot (docs : List DocSnap)
  | failure (err : String)
deriving DecidableEq, Repr

/-- The two callbacks passed to `onSnapshot`: a data tick sets
`realTimeStatus = connected` and wholesale-replaces `testProjects` with
the mapped snapshot; the error callback sets
`realTimeStatus = disconnected` and touches nothing else. -/
def handleSubEvent : SubEvent → ComponentState → ComponentState
  | SubEvent.snapshot docs, s =>
      { s with realTimeStatus := RealTimeStatus.connected
               testProjects := docs.map docToProject }
  | SubEvent.failure _, s =>
      { s with realTimeStatus := RealTimeStatus.disconnected }

/-- State after a sequence of subscription events has been delivered. -/
def applyEvents (evs : List SubEvent) (s : ComponentState) : ComponentState :=
  evs.foldl (fun st ev => handleSubEvent ev st) s

/-- The sequence of `realTimeStatus` values observed while a sequence of
subscription events is delivered (initial value included). -/
def observedRealTime : List SubEvent → ComponentState → List RealTimeStatus
  | [], s => [s.realTimeStatus]
  | ev :: rest, s => s.realTimeStatus :: observedRealTime rest (handleSubEvent ev s)

/-- The effect cleanup closure `() => { if (unsubscribe) unsubscribe(); }`.
The captured `unsubscribe` variable is modelled as an optional opaque
handle; the result is the list of release calls one invocation emits
(empty when no subscription was ever established).  The closure never
clears the variable, so each invocation re-reads the same handle. -/
def effectCleanup (unsub : Option Nat) : List Nat :=
  match unsub with
  | none => []
  | some h => [h]

/-- Establishment of the subscription by the effect body: `testRealTime`
is run, and the `unsubscribe` variable assigned, exactly when
`status === "success"`; otherwise the variable stays unset.  `handle` is
the opaque unsubscribe handle returned by `onSnapshot`. -/
def effectSetup (status : ConnectionStatus) (handle : Nat) : Option Nat :=
  if status = ConnectionStatus.success then some handle else none

/-- The `disabled` condition of the "Test Connection" button. -/
def testButtonDisabled (s : ComponentState) : Bool :=
  s.status = ConnectionStatus.testing

/-- The `disabled` condition of the "Add Test Data" button
(`status !== "success" || isLoading`). -/
def addButtonDisabled (s : ComponentState) : Bool :=
  !(s.status = ConnectionStatus.success) || s.isLoading

/-- The `disabled` condition of the "Clear Test Data" button
(`status !== "success" || isLoading || testProjects.length === 0`). -/
def clearButtonDisabled (s : ComponentState) : Bool :=
  !(s.status = ConnectionStatus.success) || s.isLoading
    || s.testProjects.length = 0

/-- Invoking the insert command through the UI: a disabled button does not
fire its `onClick` handler, so the click is a no-op on a disabled state. -/
def clickAddTestData (now : Nat) (addResult : Except String String)
    (readResult : Except String (List DocSnap))
    (s : ComponentState) : InsertRun :=
  if addButtonDisabled s then
    { startState := s, submitted := [], probeRan := false, messages := [], final := s }
  else
    addTestData now addResult readResult s

/-- Invoking the delete command through the UI: a disabled button does not
fire its `onClick` handler, so the click is a no-op on a disabled state. -/
def clickClearTestData (del : String → Except String Unit)
    (readResult : Except String (List DocSnap))
    (s : ComponentState) : ClearRun :=
  if clearButtonDisabled s then
    { startState := s, deletesIssued := [], deletesSucceeded := []
      probeRan := false, messages := [], final := s }
  else
    clearTestData del readResult s

/-! ## Concrete fixtures used to evaluate the model on explicit inputs -/

/-- A sample record carrying the synthetic name prefix and a given
identifier. -/
def mkProj (i : String) : TestProject :=
  { name := "Test Project " ++ i, location := "L", pm := "P", pic := "Q"
    picRole := "R", due := "D", notes := [], id := some i }

/-- A state holding three matching records with identifiers
`"a"`, `"b"`, `"c"`. -/
def s3 : ComponentState :=
  { initialState with testProjects := [mkProj "a", mkProj "b", mkProj "c"] }

/-- A deletion oracle that fails exactly on identifier `"b"`. -/
def del3 (i : String) : Except String Unit :=
  if i = "b" then Except.error "boom" else Except.ok ()

/-- A matching record whose identifier is absent. -/
def noIdProject : TestProject :=
  { name := "Test Project X", location := "L", pm := "P", pic := "Q"
    picRole := "R", due := "D", notes := [], id := none }

/-- A state holding exactly one matching record without an identifier. -/
def sNoId : ComponentState :=
  { initialState with testProjects := [noIdProject] }

/-! ## Helper lemmas -/

theorem strContains_append_mid (a b c : String) :
    strContains (a ++ b ++ c) b = true := by
  unfold strContains
  rw [List.any_eq_true]
  refine ⟨a.data.length, ?_, ?_⟩
  · rw [List.mem_range]
    have h : (a ++ b ++ c).data = a.data ++ (b.data ++ c.data) := by
      rw [String.data_append, String.data_append, List.append_assoc]
    rw [h]
    simp [List.length_append]
    omega
  · have h : (a ++ b ++ c).data = a.data ++ (b.data ++ c.data) := by
      rw [String.data_append, String.data_append, List.append_assoc]
    rw [h, List.drop_left, List.isPrefixOf_iff_prefix]
    exact List.prefix_append b.data c.data

theorem strContains_append_right (a b : String) :
    strContains (a ++ b) b = true := by
  unfold strContains
  rw [List.any_eq_true]
  refine ⟨a.data.length, ?_, ?_⟩
  · rw [List.mem_range, String.data_append]
    simp [List.length_append]
    omega
  · rw [String.data_append, List.drop_left, List.isPrefixOf_iff_prefix]

theorem runDeletes_fail (del : String → Except String Unit) :
    ∀ (l : List TestProject) (j : Nat) (e : String),
    (∀ p ∈ l, p.id.isSome = true) →
    j < (l.filterMap fun p => p.id).length →
    (∀ i, i < j → del ((l.filterMap fun p => p.id).getD i "") = Except.ok ()) →
    del ((l.filterMap fun p => p.id).getD j "") = Except.error e →
    runDeletes del l =
      { issued := (l.filterMap fun p => p.id).take (j + 1)
        succeeded := (l.filterMap fun p => p.id).take j
        failure := some e } := by
  intro l
  induction l with
  | nil =>
      intro j e _ hlen _ _
      simp at hlen
  | cons p rest ih =>
      intro j e hids hlen hok hfail
      obtain ⟨i, hi⟩ : ∃ i, p.id = some i :=
        Option.isSome_iff_exists.mp (hids p (List.mem_cons_self p rest))
      have hfm : (p :: rest).filterMap (fun q => q.id)
          = i :: rest.filterMap (fun q => q.id) := by
        simp [List.filterMap_cons, hi]
      cases j with
      | zero =>
          have hdel : del i = Except.error e := by
            rw [hfm] at hfail
            simpa using hfail
          simp [runDeletes, hi, hdel, hfm]
      | succ k =>
          have hdel : del i = Except.ok () := by
            have h0 := hok 0 (Nat.succ_pos k)
            rw [hfm] at h0
            simpa using h0
          have ihr := ih k e (fun q hq => hids q (List.mem_cons_of_mem p hq))
            (by rw [hfm] at hlen; simpa using Nat.lt_of_succ_lt_succ hlen)
            (by
              intro m hm
              have hm1 := hok (m + 1) (Nat.succ_lt_succ hm)
              rw [hfm] at hm1
              simpa using hm1)
            (by rw [hfm] at hfail; simpa using hfail)
          simp [runDeletes, hi, hdel, ihr, hfm, List.take_succ_cons]

theorem runDeletes_success (del : String → Except String Unit) :
    ∀ l : List TestProject,
    (runDeletes del l).failure = none →
    (runDeletes del l).issued = (l.filterMap fun p => p.id)
    ∧ (runDeletes del l).succeeded = (l.filterMap fun p => p.id) := by
  intro l
  induction l with
  | nil => intro _; simp [runDeletes]
  | cons p rest ih =>
      intro hnone
      cases hi : p.id with
      | none =>
          rw [runDeletes, hi] at hnone ⊢
          simpa [List.filterMap_cons, hi] using ih hnone
      | some i =>
          cases hdel : del i with
          | ok u =>
              rw [runDeletes, hi] at hnone
              simp [hdel] at hnone
              have hr := ih hnone
              simp [runDeletes, List.filterMap_cons, hi, hdel, hr.1, hr.2]
          | error e =>
              rw [runDeletes, hi] at hnone
              simp [hdel] at hnone

theorem length_filterMap_id_of_isSome :
    ∀ l : List TestProject, (∀ p ∈ l, p.id.isSome = true) →
    ((l.filterMap fun p => p.id).length = l.length) := by
  intro l
  induction l with
  | nil => intro _; rfl
  | cons p rest ih =>
      intro hall
      obtain ⟨i, hi⟩ : ∃ i, p.id = some i :=
        Option.isSome_iff_exists.mp (hall p (List.mem_cons_self p rest))
      simp [List.filterMap_cons, hi,
        ih fun q hq => hall q (List.mem_cons_of_mem p hq)]

/-! ## Claims -/

/-- Claim C1: every invocation of the Connection Prober first sets
`ConnectionStatus` to `testing` and emits an in-progress message; if the
read succeeds, `ConnectionStatus` is `success`, the local record sequence
equals exactly the returned set, and the message contains the count of
records found; if the read fails, `ConnectionStatus` is `error`, the
local record sequence is unchanged, and the message contains the
failure's description. -/
theorem probe_contract (s : ComponentState) (docs : List DocSnap) (e : String) :
    (∀ rr : Except String (List DocSnap),
        (testConnection rr s).mid.status = ConnectionStatus.testing
        ∧ (testConnection rr s).mid.message = "Testing Firebase connection...")
    ∧ ((testConnection (Except.ok docs) s).final.status = ConnectionStatus.success
        ∧ (testConnection (Except.ok docs) s).final.testProjects = docs.map docToProject
        ∧ strContains (testConnection (Except.ok docs) s).final.message
            (toString docs.length) = true)
    ∧ ((testConnection (Except.error e) s).final.status = ConnectionStatus.error
        ∧ (testConnection (Except.error e) s).final.testProjects = s.testProjects
        ∧ strContains (testConnection (Except.error e) s).final.message e = true) := by
  refine ⟨fun rr => ?_, ⟨rfl, rfl, ?_⟩, ⟨rfl, rfl, ?_⟩⟩
  · cases rr <;> exact ⟨rfl, rfl⟩
  · exact strContains_append_mid "✅ Firebase connected! Found "
      (toString docs.length) " projects in database."
  · exact strContains_append_right "❌ Firebase connection failed: " e

/-- Claim C2: invoking the insert command through the UI while
`ConnectionStatus` is not `success` is a no-op: the button is disabled,
so no insert is submitted and no local state changes. -/
theorem insert_click_noop (now : Nat) (ar : Except String String)
    (rr : Except String (List DocSnap)) (s : ComponentState)
    (h : ¬ s.status = ConnectionStatus.success) :
    (clickAddTestData now ar rr s).submitted = []
    ∧ (clickAddTestData now ar rr s).probeRan = false
    ∧ (clickAddTestData now ar rr s).messages = []
    ∧ (clickAddTestData now ar rr s).final = s := by
  have hd : addButtonDisabled s = true := by
    simp [addButtonDisabled, h]
  simp [clickAddTestData, hd]

theorem insert_click_noop_witness :
    ¬ ({ initialState with status := ConnectionStatus.testing } : ComponentState).status
        = ConnectionStatus.success
    ∧ (clickAddTestData 0 (Except.ok "id1") (Except.ok [])
        { initialState with status := ConnectionStatus.testing }).submitted = []
    ∧ (clickAddTestData 0 (Except.ok "id1") (Except.ok [])
        { initialState with status := ConnectionStatus.testing }).final
        = { initialState with status := ConnectionStatus.testing } :=
  ⟨by decide,
   (insert_click_noop 0 (Except.ok "id1") (Except.ok [])
      { initialState with status := ConnectionStatus.testing } (by decide)).1,
   (insert_click_noop 0 (Except.ok "id1") (Except.ok [])
      { initialState with status := ConnectionStatus.testing } (by decide)).2.2.2⟩

/-- Claim C3: when the deletion of the (j+1)-st matching record fails, exactly
the deletions of the earlier matching records were performed, the failing
call is the last one issued, the failure's description is surfaced in the
message, `ConnectionStatus` is unchanged, and no refresh probe runs. -/
theorem clear_abort_on_failure (del : String → Except String Unit)
    (rr : Except String (List DocSnap)) (s : ComponentState) (j : Nat) (e : String)
    (hids : ∀ p ∈ matchingProjects s, p.id.isSome = true)
    (hlen : j < ((matchingProjects s).filterMap fun p => p.id).length)
    (hok : ∀ i, i < j →
      del (((matchingProjects s).filterMap fun p => p.id).getD i "") = Except.ok ())
    (hfail :
      del (((matchingProjects s).filterMap fun p => p.id).getD j "") = Except.error e) :
    (clearTestData del rr s).deletesSucceeded
        = ((matchingProjects s).filterMap fun p => p.id).take j
    ∧ (clearTestData del rr s).deletesIssued
        = ((matchingProjects s).filterMap fun p => p.id).take (j + 1)
    ∧ strContains (clearTestData del rr s).final.message e = true
    ∧ (clearTestData del rr s).final.status = s.status
    ∧ (clearTestData del rr s).probeRan = false := by
  have hrun := runDeletes_fail del (matchingProjects s) j e hids hlen hok hfail
  refine ⟨?_, ?_, ?_, ?_, ?_⟩ <;>
    simp [clearTestData, hrun]
  exact strContains_append_right "❌ Failed to clear test data: " e

theorem clear_abort_on_failure_witness :
    del3 "b" = Except.error "boom"
    ∧ (clearTestData del3 (Except.ok []) s3).deletesSucceeded = ["a"]
    ∧ (clearTestData del3 (Except.ok []) s3).deletesIssued = ["a", "b"]
    ∧ strContains (clearTestData del3 (Except.ok []) s3).final.message "boom" = true
    ∧ (clearTestData del3 (Except.ok []) s3).final.status = s3.status
    ∧ (clearTestData del3 (Except.ok []) s3).probeRan = false := by
  have h := clear_abort_on_failure del3 (Except.ok []) s3 1 "boom"
    (by decide) (by decide)
    (by
      intro i hi
      have h0 : i = 0 := Nat.lt_one_iff.mp hi
      subst h0
      rfl)
    (by rfl)
  exact ⟨rfl, h.1, h.2.1, h.2.2.1, h.2.2.2.1, h.2.2.2.2⟩

/-- Claim C4: the connection status is written only by the Connection Prober: the
failure branch of the insert command, the failure branch of the delete
command, and every subscription callback (in particular the error
callback) leave it unchanged. -/
theorem status_written_only_by_prober :
    (∀ (now : Nat) (e : String) (rr : Except String (List DocSnap))
        (s : ComponentState),
        (addTestData now (Except.error e) rr s).final.status = s.status)
    ∧ (∀ (del : String → Except String Unit) (rr : Except String (List DocSnap))
        (s : ComponentState) (e : String),
        (runDeletes del (matchingProjects s)).failure = some e →
        (clearTestData del rr s).final.status = s.status)
    ∧ (∀ (ev : SubEvent) (s : ComponentState),
        (handleSubEvent ev s).status = s.status) := by
  refine ⟨fun now e rr s => rfl, fun del rr s e h => ?_, fun ev s => ?_⟩
  · simp [clearTestData, h]
  · cases ev <;> rfl

theorem status_written_only_by_prober_witness :
    (runDeletes del3 (matchingProjects s3)).failure = some "boom"
    ∧ (clearTestData del3 (Except.ok []) s3).final.status = s3.status
    ∧ (addTestData 0 (Except.error "x") (Except.ok []) s3).final.status = s3.status
    ∧ (handleSubEvent (SubEvent.failure "x") s3).status = s3.status :=
  ⟨by decide,
   status_written_only_by_prober.2.1 del3 (Except.ok []) s3 "boom" (by decide),
   status_written_only_by_prober.1 0 "x" (Except.ok []) s3,
   status_written_only_by_prober.2.2 (SubEvent.failure "x") s3⟩

/-- Claim C5: from `realTimeStatus = idle`, delivering snapshot `A`, snapshot
`B`, then an error yields the observed sequence
`idle, connected, connected, disconnected`, and the record sequence ends
equal to `B`; each data tick wholesale-replaces the record sequence and
sets `connected`, while the error callback sets `disconnected` and leaves
the record sequence untouched. -/
theorem subscription_trace (s : ComponentState) (A B : List DocSnap) (e : String) :
    observedRealTime
        [SubEvent.snapshot A, SubEvent.snapshot B, SubEvent.failure e]
        { s with realTimeStatus := RealTimeStatus.idle }
      = [RealTimeStatus.idle, RealTimeStatus.connected, RealTimeStatus.connected,
         RealTimeStatus.disconnected]
    ∧ (applyEvents [SubEvent.snapshot A, SubEvent.snapshot B, SubEvent.failure e]
        { s with realTimeStatus := RealTimeStatus.idle }).testProjects
        = B.map docToProject
    ∧ (∀ (docs : List DocSnap) (t : ComponentState),
        handleSubEvent (SubEvent.snapshot docs) t
          = { t with realTimeStatus := RealTimeStatus.connected
                     testProjects := docs.map docToProject })
    ∧ (∀ (err : String) (t : ComponentState),
        (handleSubEvent (SubEvent.failure err) t).testProjects = t.testProjects
        ∧ (handleSubEvent (SubEvent.failure err) t).realTimeStatus
            = RealTimeStatus.disconnected) :=
  ⟨rfl, rfl, fun _ _ => rfl, fun _ _ => ⟨rfl, rfl⟩⟩

/-- Claim C6, counterexample: the cleanup closure never clears the captured
handle, so invoking it twice after a subscription was established emits
the release call twice — the claim's "releases the subscription handle
exactly once per established subscription", taken together with its
"safe to call twice", is false at this input. -/
theorem cleanup_double_invocation_releases_twice :
    ¬ ((effectCleanup (some 0) ++ effectCleanup (some 0)).length = 1) := by
  decide

/-- Claim C6, amended: teardown invoked when no subscription was ever
established performs no release call and raises no error; a single
invocation after establishment releases the handle exactly once; but a
second invocation releases it again, because the closure does not clear
the captured handle. -/
theorem cleanup_release_behavior (h : Nat) :
    effectCleanup none = []
    ∧ effectCleanup (effectSetup ConnectionStatus.idle h) = []
    ∧ effectCleanup (effectSetup ConnectionStatus.testing h) = []
    ∧ effectCleanup (effectSetup ConnectionStatus.error h) = []
    ∧ effectCleanup (effectSetup ConnectionStatus.success h) = [h]
    ∧ effectCleanup (some h) ++ effectCleanup (some h) = [h, h] :=
  ⟨rfl, rfl, rfl, rfl, rfl, rfl⟩

/-- Claim C7: when the local record sequence contains zero matching records,
the delete command issues no deletion calls and still re-runs the
Connection Prober: it is a pure refresh. -/
theorem clear_zero_matches_pure_refresh (del : String → Except String Unit)
    (rr : Except String (List DocSnap)) (s : ComponentState)
    (h : matchingProjects s = []) :
    (clearTestData del rr s).deletesIssued = []
    ∧ (clearTestData del rr s).probeRan = true := by
  simp [clearTestData, h, runDeletes]

theorem clear_zero_matches_pure_refresh_witness :
    matchingProjects initialState = []
    ∧ (clearTestData (fun _ => Except.ok ()) (Except.ok [])
        initialState).deletesIssued = []
    ∧ (clearTestData (fun _ => Except.ok ()) (Except.ok [])
        initialState).probeRan = true :=
  ⟨rfl, clear_zero_matches_pure_refresh (fun _ => Except.ok ()) (Except.ok [])
    initialState rfl⟩

/-- Claim C8, counterexample: on a state holding one matching record without an
identifier, the run completes without failure, the record is skipped
(no delete call is issued, zero records are deleted), yet the completion
message reads "✅ Cleared 1 test projects" — it contains the match count,
not the count of records actually deleted (0). -/
theorem clear_count_counterexample :
    (clearTestData (fun _ => Except.ok ()) (Except.ok []) sNoId).probeRan = true
    ∧ (clearTestData (fun _ => Except.ok ()) (Except.ok []) sNoId).deletesIssued = []
    ∧ (clearTestData (fun _ => Except.ok ())
        (Except.ok []) sNoId).deletesSucceeded.length = 0
    ∧ (clearTestData (fun _ => Except.ok ()) (Except.ok []) sNoId).messages.getD 1 ""
        = "✅ Cleared 1 test projects"
    ∧ strContains
        ((clearTestData (fun _ => Except.ok ()) (Except.ok []) sNoId).messages.getD 1 "")
        (toString ((clearTestData (fun _ => Except.ok ())
          (Except.ok []) sNoId).deletesSucceeded.length)) = false := by
  refine ⟨rfl, rfl, rfl, rfl, ?_⟩
  decide

/-- Claim C8, amended: on every run of the delete command that completes without
a deletion failure, matching records without an identifier are skipped
(exactly the identifiers present among the matches are issued for
deletion), and the completion message contains the count of matching
records — which equals the count of records actually deleted whenever
every matching record has an identifier. -/
theorem clear_complete_message_counts (del : String → Except String Unit)
    (rr : Except String (List DocSnap)) (s : ComponentState)
    (h : (runDeletes del (matchingProjects s)).failure = none) :
    (clearTestData del rr s).deletesIssued
        = ((matchingProjects s).filterMap fun p => p.id)
    ∧ (clearTestData del rr s).messages.getD 1 ""
        = "✅ Cleared " ++ toString (matchingProjects s).length ++ " test projects"
    ∧ strContains ((clearTestData del rr s).messages.getD 1 "")
        (toString (matchingProjects s).length) = true
    ∧ ((∀ p ∈ matchingProjects s, p.id.isSome = true) →
        (clearTestData del rr s).deletesSucceeded.length
          = (matchingProjects s).length) := by
  have hrun := runDeletes_success del (matchingProjects s) h
  refine ⟨?_, ?_, ?_, ?_⟩
  · simp [clearTestData, h, hrun.1]
  · simp [clearTestData, h]
  · have hm : (clearTestData del rr s).messages.getD 1 ""
        = "✅ Cleared " ++ toString (matchingProjects s).length ++ " test projects" := by
      simp [clearTestData, h]
    rw [hm]
    exact strContains_append_mid "✅ Cleared "
      (toString (matchingProjects s).length) " test projects"
  · intro hall
    have hs : (clearTestData del rr s).deletesSucceeded
        = ((matchingProjects s).filterMap fun p => p.id) := by
      simp [clearTestData, h, hrun.2]
    rw [hs]
    exact length_filterMap_id_of_isSome (matchingProjects s) hall

theorem clear_complete_message_counts_witness :
    (runDeletes (fun _ => Except.ok ()) (matchingProjects s3)).failure = none
    ∧ (∀ p ∈ matchingProjects s3, p.id.isSome = true)
    ∧ (clearTestData (fun _ => Except.ok ()) (Except.ok []) s3).deletesIssued
        = ["a", "b", "c"]
    ∧ strContains
        ((clearTestData (fun _ => Except.ok ()) (Except.ok []) s3).messages.getD 1 "")
        "3" = true
    ∧ (clearTestData (fun _ => Except.ok ())
        (Except.ok []) s3).deletesSucceeded.length = 3 := by
  have h := clear_complete_message_counts (fun _ => Except.ok ())
    (Except.ok []) s3 (by rfl)
  exact ⟨rfl, by decide, h.1, h.2.2.1, h.2.2.2 (by decide)⟩

/-- Claim C9: both mutation commands set the busy flag at the start and clear
it when the operation completes, on the success path and on the failure
path alike; while the busy flag is set, the UI disables re-invocation of
both commands. -/
theorem busy_flag_protocol :
    (∀ (now : Nat) (ar : Except String String) (rr : Except String (List DocSnap))
        (s : ComponentState),
        (addTestData now ar rr s).startState.isLoading = true
        ∧ (addTestData now ar rr s).final.isLoading = false)
    ∧ (∀ (del : String → Except String Unit) (rr : Except String (List DocSnap))
        (s : ComponentState),
        (clearTestData del rr s).startState.isLoading = true
        ∧ (clearTestData del rr s).final.isLoading = false)
    ∧ (∀ s : ComponentState, s.isLoading = true →
        addButtonDisabled s = true ∧ clearButtonDisabled s = true) := by
  refine ⟨fun now ar rr s => ?_, fun del rr s => ?_, fun s h => ?_⟩
  · cases ar <;> exact ⟨rfl, rfl⟩
  · cases hf : (runDeletes del (matchingProjects s)).failure <;>
      simp [clearTestData, hf]
  · simp [addButtonDisabled, clearButtonDisabled, h]

theorem busy_flag_protocol_witness :
    (addTestData 0 (Except.ok "x") (Except.ok []) initialState).startState.isLoading
        = true
    ∧ (addTestData 0 (Except.ok "x") (Except.ok []) initialState).final.isLoading
        = false
    ∧ (clearTestData del3 (Except.ok []) s3).final.isLoading = false
    ∧ ({ initialState with isLoading := true } : ComponentState).isLoading = true
    ∧ addButtonDisabled { initialState with isLoading := true } = true
    ∧ clearButtonDisabled { initialState with isLoading := true } = true :=
  ⟨(busy_flag_protocol.1 0 (Except.ok "x") (Except.ok []) initialState).1,
   (busy_flag_protocol.1 0 (Except.ok "x") (Except.ok []) initialState).2,
   (busy_flag_protocol.2.1 del3 (Except.ok []) s3).2,
   rfl,
   (busy_flag_protocol.2.2 { initialState with isLoading := true } rfl).1,
   (busy_flag_protocol.2.2 { initialState with isLoading := true } rfl).2⟩

/-- Claim C10: after a successful insert followed by a successful refresh
probe, the final displayed message is the probe's success message
(containing the record count), not the insert message with the assigned
identifier, which is emitted only transiently (second in the emitted
message sequence) before the unconditional re-probe overwrites it. -/
theorem insert_message_overwritten_by_probe (now : Nat) (docId : String)
    (docs : List DocSnap) (s : ComponentState) :
    (addTestData now (Except.ok docId) (Except.ok docs) s).probeRan = true
    ∧ (addTestData now (Except.ok docId) (Except.ok docs) s).messages.getD 1 ""
        = "✅ Test project added! ID: " ++ docId
    ∧ (addTestData now (Except.ok docId) (Except.ok docs) s).final.message
        = "✅ Firebase connected! Found " ++ toString docs.length
          ++ " projects in database."
    ∧ strContains (addTestData now (Except.ok docId) (Except.ok docs) s).final.message
        (toString docs.length) = true
    ∧ ¬ ((addTestData now (Except.ok docId) (Except.ok docs) s).final.message
        = "✅ Test project added! ID: " ++ docId) := by
  refine ⟨rfl, rfl, rfl, ?_, ?_⟩
  · exact strContains_append_mid "✅ Firebase connected! Found "
      (toString docs.length) " projects in database."
  · intro heq
    have h1 : ((addTestData now (Except.ok docId)
        (Except.ok docs) s).final.message).data.getD 2 ' ' = 'F' := rfl
    have h2 : (("✅ Test project added! ID: " ++ docId) : String).data.getD 2 ' '
        = 'T' := rfl
    rw [heq, h2] at h1
    exact absurd h1 (by decide)

end FirebaseTest
